import Mathlib

/-!
Shallow embedding of `@pleasure-js/api-client` (files `src/api-client.js`,
`src/api-proxy.js`, `src/lib/driver.js`) for checking the repository's
natural-language specification.

Conventions used throughout:
* JavaScript `undefined` is `Option.none`; a defined value is `Option.some`.
* A rejected promise / thrown error is carried as `Except.error` or as an
  `Option ε` side channel, mirroring where the source lets errors escape.
* Mutable fields of the client objects become fields of explicit state
  structures threaded through the functions.
-/

/-- Model of the repository's own `Promise.each` helper
(`api-client.js` lines 11-13):
`Promise.each = async function (arr, fn) { for (const item of arr) await fn(item) }`.
The loop awaits `fn` on each item in order and DISCARDS the value `fn`
returns; a rejection of `fn` aborts the loop and rejects the whole call.
`fn` takes the accumulated mutable environment `σ` and one item, and yields
the updated environment plus an optional thrown error; state mutated by a
partially-run `fn` persists even when it then throws, as in JavaScript. -/
def promiseEach {α σ ε : Type} (fn : σ → α → σ × Option ε) : List α → σ → σ × Option ε
  | [], s => (s, none)
  | a :: rest, s =>
    match fn s a with
    | (s1, some e) => (s1, some e)
    | (s1, none) => promiseEach fn rest s1

/-- Body of the arrow function passed to `Promise.each` inside
`ApiClient.proxyCacheReq` (`api-client.js` lines 152-157). The environment is
the pair (list of hook indices invoked so far, current value of the mutable
variable `res`). Each iteration runs the hook's `req` handler (here the hook
is pre-applied to the fixed `{id, req}` argument, so it is just its result
`Option V`) and overwrites `res` with the handler's result. The source then
does `if (typeof res !== 'undefined') return false`, but that returned
`false` is discarded by `Promise.each`, so it is invisible here. The hook
handlers are modelled as non-throwing. -/
def reqStep {V : Type} (st : List Nat × Option V) (ih : Nat × Option V) :
    (List Nat × Option V) × Option Empty :=
  ((st.1 ++ [ih.1], ih.2), none)

/-- Model of `ApiClient.proxyCacheReq` (`api-client.js` lines 150-159): runs
every registered cache hook's `req` handler through `Promise.each` and
returns the trace of invoked hook indices together with the final value of
the mutable `res` variable, which is what the method returns. -/
def proxyCacheReq {V : Type} (hooks : List (Option V)) : List Nat × Option V :=
  (promiseEach reqStep hooks.enum (([], none) : List Nat × Option V)).1

/-- Body of the arrow function passed to `Promise.each` inside
`ApiClient.proxyCacheRes` (`api-client.js` lines 162-164): awaits each hook's
`res` handler in order. A handler is modelled by its outcome
`Except ε Unit` on the fixed `{id, req, res}` argument; the environment
records the indices of the handlers that were invoked. The handler counts as
invoked even when it throws; its thrown error is surfaced so that
`Promise.each` aborts the loop with it. -/
def resStep {ε : Type} (st : List Nat) (ih : Nat × Except ε Unit) :
    List Nat × Option ε :=
  (st ++ [ih.1],
    match ih.2 with
    | .ok _ => none
    | .error e => some e)

/-- Model of `ApiClient.proxyCacheRes` (`api-client.js` lines 161-167): runs
the registered hooks' `res` handlers through `Promise.each`, yielding the
trace of invoked hook indices and the rejection of the whole pass, if any. -/
def proxyCacheRes {ε : Type} (hooks : List (Except ε Unit)) : List Nat × Option ε :=
  promiseEach resStep hooks.enum []

/-- Observable outcome of one call to `ApiClient.driver`. -/
structure DriverOut (V E : Type) where
  /-- What the caller's awaited call resolves to. -/
  result : Except E V
  /-- Whether the underlying transport (`this._driver(req)`) was invoked. -/
  transportInvoked : Bool
  /-- Indices of cache hooks whose `req` handler was invoked, in order. -/
  reqInvoked : List Nat
  /-- Indices of cache hooks whose `res` handler was invoked, in order. -/
  resInvoked : List Nat
  /-- Errors logged by the `.catch(err => console.log(...))` on the res pass. -/
  logged : List E

/-- Model of `ApiClient.driver` (`api-client.js` lines 169-191). The request
is fixed, so the req hooks are given by their results and the res hooks by
their outcomes; `transport` is the value the underlying axios driver would
resolve to. Steps mirrored from the source: run `proxyCacheReq`; if its
result is defined, return it (transport and res hooks untouched); otherwise
invoke the transport, fire `proxyCacheRes` without awaiting it — its
rejection, if any, is caught and logged, never propagated — and resolve with
the transport's value. The `queryParamEncode` normalization of `req.params`
and the `objectHash` fingerprint do not affect these observables and are not
modelled. -/
def driver {V E : Type} (reqHooks : List (Option V)) (transport : V)
    (resHooks : List (Except E Unit)) : DriverOut V E :=
  match proxyCacheReq reqHooks with
  | (reqInv, some c) => ⟨Except.ok c, false, reqInv, [], []⟩
  | (reqInv, none) =>
    ⟨Except.ok transport, true, reqInv,
      (proxyCacheRes resHooks).1, (proxyCacheRes resHooks).2.toList⟩

/-- Number of res hooks that actually run: all of them up to and including
the first one that fails. -/
def resStopCount {ε : Type} : List (Except ε Unit) → Nat
  | [] => 0
  | .ok _ :: rest => resStopCount rest + 1
  | .error _ :: _ => 1

/-- First error raised by a res hook, if any. -/
def firstFailure {ε : Type} : List (Except ε Unit) → Option ε
  | [] => none
  | .ok _ :: rest => firstFailure rest
  | .error e :: _ => some e

/-- One segment of the accumulated path in `api-proxy.js`: either a plain
identifier pushed by the `get` trap (`obj.paths.push(prop)`), or a literal
wrapper `{ value: query }` pushed by `crudProxy` when it is called with a
non-object argument. -/
inductive Seg where
  | ident (name : String)
  | lit (value : String)

/-- Minimal model of a JavaScript value, enough to express truthiness and
`undefined`-ness as the source uses them. -/
inductive JsValue where
  | undef
  | null
  | bool (b : Bool)
  | num (n : Int)
  | str (s : String)
  | obj (fields : List (String × JsValue))

/-- JavaScript truthiness of a `JsValue` (`NaN` is not modelled). -/
def jsTruthy : JsValue → Bool
  | .undef => false
  | .null => false
  | .bool b => b
  | .num n => n != 0
  | .str s => s != ""
  | .obj _ => true

/-- Definedness check `x !== undefined` as an `Option`. -/
def jsDefined : JsValue → Option JsValue
  | .undef => none
  | v => some v

/-- JavaScript `a || b`. -/
def jsOr (a b : JsValue) : JsValue :=
  if jsTruthy a then a else b

/-- A plain JavaScript object, used for the `get` (query) and `body` parts of
a compiled request; `[]` is the empty object `{}`. -/
abbrev JsObject := List (String × JsValue)

/-- JavaScript `Array.prototype.join(sep)` on a list of strings. -/
def joinSep (sep : String) : List String → String
  | [] => ""
  | [t] => t
  | t :: rest => t ++ sep ++ joinSep sep rest

/-- Character classes used by the word splitter underlying the model of
lodash `kebabCase`. -/
inductive CClass where
  | upper
  | lower
  | digit
  | other

/-- Classify an ASCII character. -/
def cclass (c : Char) : CClass :=
  if c.isUpper then .upper
  else if c.isLower then .lower
  else if c.isDigit then .digit
  else .other

/-- Append the current word to the accumulator if it is nonempty. -/
def flushWord (acc : List (List Char)) (cur : List Char) : List (List Char) :=
  if cur.isEmpty then acc else acc ++ [cur]

/-- One step of the word splitter: word boundaries fall on non-alphanumeric
characters, lower-to-upper transitions, letter/digit transitions, and before
the last upper of an upper run followed by a lower (so `FOOBar` splits as
`FOO`/`Bar`), matching how lodash splits ASCII identifiers into words. -/
def wordStep (st : List (List Char) × List Char) (c : Char) :
    List (List Char) × List Char :=
  let acc := st.1
  let cur := st.2
  match cclass c with
  | .other => (flushWord acc cur, [])
  | k =>
    match cur.getLast? with
    | none => (acc, [c])
    | some p =>
      match cclass p, k with
      | .lower, .upper => (flushWord acc cur, [c])
      | .digit, .upper => (flushWord acc cur, [c])
      | .digit, .lower => (flushWord acc cur, [c])
      | .upper, .digit => (flushWord acc cur, [c])
      | .lower, .digit => (flushWord acc cur, [c])
      | .upper, .lower =>
        if 2 ≤ cur.length then (flushWord acc cur.dropLast, [p, c])
        else (acc, cur ++ [c])
      | _, _ => (acc, cur ++ [c])

/-- Split a string into its constituent words. -/
def splitWords (s : String) : List (List Char) :=
  let st := s.toList.foldl wordStep ([], [])
  flushWord st.1 st.2

/-- Model of the external `lodash/kebabCase` on ASCII identifiers (the only
inputs path segments take here): split into words, lowercase each, join with
hyphens. -/
def kebabCase (s : String) : String :=
  joinSep "-" ((splitWords s).map (fun w => String.mk (w.map Char.toLower)))

/-- Token contributed by one path segment in `pathsToUrl`
(`api-proxy.js` lines 8-13): literal wrappers contribute their raw `value`
(`if (typeof path === 'object') return path.value`), identifiers go through
the imported `kebabCase`, passed in here as `kc`. -/
def segToken (kc : String → String) : Seg → String
  | .lit v => v
  | .ident s => kc s

/-- Model of `pathsToUrl` (`api-proxy.js` lines 7-14):
`'/' + paths.map(...).join('/')`. -/
def pathsToUrl (kc : String → String) (paths : List Seg) : String :=
  "/" ++ joinSep "/" (paths.map (segToken kc))

/-- The request descriptor produced by `deliverState`:
`{ url, method, get: query, body }`. -/
structure Endpoint where
  url : String
  method : String
  get : JsObject
  body : JsObject

/-- Model of `deliverState` (`api-proxy.js` lines 16-25): compute the URL
from the accumulated path, then clear the path in place
(`state.paths.length = 0`) and return the request descriptor. The returned
pair carries the descriptor and the path array as it stands afterwards. The
source defaults are `body = {}`, `query = {}`, `method = 'get'`; callers
here always pass them explicitly. -/
def deliverState (kc : String → String) (paths : List Seg) (body : JsObject)
    (query : JsObject) (method : String) : Endpoint × List Seg :=
  (⟨pathsToUrl kc paths, method, query, body⟩, [])

/-- Model of `crudProxy.delete` (`api-proxy.js` lines 124-129): throws when
called with any argument, otherwise compiles via
`deliverState(this, { method: 'delete', query: this.get })`. `args` is the
`arguments` object, `get` the staged query. The surrounding `next`
continuation receives the descriptor unchanged. -/
def crudDelete (kc : String → String) (args : List JsValue) (paths : List Seg)
    (get : JsObject) : Except String (Endpoint × List Seg) :=
  if args.length > 0 then
    Except.error "Method delete does not take any arguments"
  else
    Except.ok (deliverState kc paths [] get "delete")

/-- Observable outcome of the proxy `apply` trap. -/
structure ApplyOut (V : Type) where
  /-- The value returned directly by the trap, when it short-circuits. -/
  returned : Option V
  /-- The accumulated path after the trap ran. -/
  paths : List Seg
  /-- Whether chain building continued (the underlying `crudProxy` call). -/
  continued : Bool

/-- Model of `handler.apply` (`api-proxy.js` lines 39-53). When exactly one
path segment has accumulated, that segment is popped and offered to
`methodCallback` with the call's arguments; a defined result is returned
directly (path left consumed, chain abandoned), an undefined result pushes
the segment back and lets the chain continue through the `crudProxy` call.
With any other path length the callback is not consulted and the chain
simply continues. -/
def applyTrap {V : Type} (mc : Seg → List V → Option V) (paths : List Seg)
    (args : List V) : ApplyOut V :=
  match paths with
  | [method] =>
    match mc method args with
    | some res => ⟨some res, [], false⟩
    | none => ⟨none, [method], true⟩
  | _ => ⟨none, paths, true⟩

/-- Name under which a path segment is looked up on the client
(`$this[method]`); literal wrappers expose their raw value. -/
def segName : Seg → String
  | .ident s => s
  | .lit v => v

/-- Model of the `methodCallback` installed by the `ApiClient` constructor
(`api-client.js` lines 103-105): `return $this[method](...args) || true`.
`call` models the underlying method dispatch `$this[method](...args)`. -/
def clientMethodCallback (call : String → List JsValue → JsValue)
    (method : String) (args : List JsValue) : JsValue :=
  jsOr (call method args) (JsValue.bool true)

/-- The proxy `apply` trap as wired up by the `ApiClient` constructor: the
trap's `res !== undefined` test applied to the client's `methodCallback`. -/
def clientProxyApply (call : String → List JsValue → JsValue)
    (paths : List Seg) (args : List JsValue) : ApplyOut JsValue :=
  applyTrap (fun seg a => jsDefined (clientMethodCallback call (segName seg) a))
    paths args

/-- Decoded JWT claims, as returned by the external `jwt-decode`:
an opaque payload plus the optional `sessionExpires` claim that
`_sessionBeat` reads. -/
structure Claims where
  payload : String
  sessionExpires : Option Int

/-- The session-relevant mutable state of an `ApiClient` instance:
`_accessToken`, `_refreshToken`, `_userProfile`, the
`Authorization` entry of `this._driver.defaults.headers.common`, and the
trace of events emitted so far. Credential persistence to
`localStorage`/`sessionStorage` is a browser collaborator and not modelled;
likewise `this.token = this._accessToken` only feeds the realtime layer,
whose state is modelled separately below. -/
structure ClientState where
  accessToken : Option String
  refreshToken : Option String
  userProfile : Option Claims
  authHeader : Option String
  events : List String

/-- JavaScript truthiness of a string-or-null field: `null` and the empty
string are falsy. -/
def jsTruthyStr : Option String → Bool
  | none => false
  | some s => s != ""

/-- The expiry test `this.userProfile.sessionExpires <= Date.now()` from
`_sessionBeat` (`api-client.js` line 236); when the claim is absent the
JavaScript comparison `undefined <= n` is `false`. -/
def claimsExpired (now : Int) (c : Claims) : Bool :=
  match c.sessionExpires with
  | some e => decide (e ≤ now)
  | none => false

/-- Effect of `setCredentials()` called with no arguments (both fields
defaulting to `null`), fully evaluated: clears both tokens, the decoded
profile and the outbound authorization header. The lemma
`setCredentials_none` below proves this equal to the general
`setCredentials` at `null`/`null`, justifying its use inside
`localLogout` where the source recurses into `setCredentials`. -/
def clearCredentials (s : ClientState) : ClientState :=
  { s with
      accessToken := none
      refreshToken := none
      userProfile := none
      authHeader := none }

/-- Model of `ApiClient._localLogout` (`api-client.js` lines 223-231): a
no-op when there is no (truthy) access token, otherwise clears the
credentials via `setCredentials()` and emits `logout`. -/
def localLogout (s : ClientState) : ClientState :=
  if jsTruthyStr s.accessToken then
    { clearCredentials s with events := s.events ++ ["logout"] }
  else s

/-- Model of `ApiClient._sessionBeat` (`api-client.js` lines 233-241):
performs a local logout when the token is missing, the profile is missing,
or the profile's `sessionExpires` has passed; otherwise re-arms the expiry
timer (timer state is not modelled). -/
def sessionBeat (now : Int) (s : ClientState) : ClientState :=
  if !jsTruthyStr s.accessToken
      || s.userProfile.isNone
      || (match s.userProfile with
          | some p => claimsExpired now p
          | none => false) then
    localLogout s
  else s

/-- Model of `ApiClient._refreshCredentials` (`api-client.js` lines
243-256): recompute `_userProfile` from the access token (decoded only when
the token is truthy), run `_sessionBeat` — which may itself clear an expired
session — then either remove the authorization header (token falsy after the
beat) or set it to `Bearer <token>` and emit `login`. `decode` models the
external `jwt-decode`. -/
def refreshCredentials (decode : String → Claims) (now : Int)
    (s : ClientState) : ClientState :=
  let s1 := { s with userProfile :=
    match s.accessToken with
    | some tok => if tok != "" then some (decode tok) else none
    | none => none }
  let s2 := sessionBeat now s1
  match s2.accessToken with
  | some tok =>
    if tok != "" then
      { s2 with
          authHeader := some ("Bearer " ++ tok)
          events := s2.events ++ ["login"] }
    else { s2 with authHeader := none }
  | none => { s2 with authHeader := none }

/-- Model of `ApiClient.setCredentials` (`api-client.js` lines 136-148):
unconditionally overwrite both `_accessToken` and `_refreshToken` (an absent
argument field means `null`), then run `_refreshCredentials`. -/
def setCredentials (decode : String → Claims) (now : Int)
    (accessToken refreshToken : Option String) (s : ClientState) : ClientState :=
  refreshCredentials decode now
    { s with accessToken := accessToken, refreshToken := refreshToken }

/-- Model of `ApiClient.logout` (`api-client.js` lines 332-339):
`await this._driver({url: revokeEndpoint, method: 'post'})` followed by
`return this._localLogout()`. `revoke` is the outcome of the awaited revoke
request; when it rejects, the `await` re-throws and `_localLogout` is never
reached, so the state is returned unchanged together with the propagated
error. -/
def logout {ε : Type} (revoke : Except ε Unit) (s : ClientState) :
    ClientState × Option ε :=
  match revoke with
  | .error e => (s, some e)
  | .ok _ => (localLogout s, none)

/-- Model of `ApiClient.me` (`api-client.js` lines 313-323): returns early
when there is no truthy access token; otherwise behaves like `logout`. -/
def me {ε : Type} (revoke : Except ε Unit) (s : ClientState) :
    ClientState × Option ε :=
  if !jsTruthyStr s.accessToken then (s, none)
  else
    match revoke with
    | .error e => (s, some e)
    | .ok _ => (localLogout s, none)

/-- A sample decoder for witnesses: the whole token is the payload, no
expiry claim. -/
def decodeId : String → Claims := fun t => ⟨t, none⟩

/-- A freshly constructed, anonymous client state. -/
def emptyClient : ClientState := ⟨none, none, none, none, []⟩

/-- A client state holding a live session, used in counterexamples. -/
def sessionClient : ClientState :=
  ⟨some "tok", some "ref", some ⟨"tok", none⟩, some "Bearer tok", []⟩

/-- The realtime-connection state owned by `ReduxClient`
(`lib/driver.js`): the current token, the token identity the live/pending
connection was opened with, the two connection flags, the current socket
(by id), a counter for socket creation, and the ids of sockets torn down so
far. -/
structure RtState where
  token : Option String
  connectedAuth : Option String
  isConnected : Bool
  isConnecting : Bool
  socket : Option Nat
  nextSocketId : Nat
  tornDown : List Nat

/-- Model of `ReduxClient.connect` (`lib/driver.js` lines 159-211): when the
connection identity matches the current token and a connection is
established or in progress, return immediately; otherwise mark connecting,
record the token identity, tear down any existing socket
(`this._unwireSocket(); this._socket.disconnect(true)`) and create and wire
a fresh one. -/
def connect (s : RtState) : RtState :=
  if s.connectedAuth = s.token ∧ (s.isConnected = true ∨ s.isConnecting = true) then
    s
  else
    { token := s.token
      connectedAuth := s.token
      isConnected := false
      isConnecting := true
      socket := some s.nextSocketId
      nextSocketId := s.nextSocketId + 1
      tornDown := s.tornDown ++ s.socket.toList }

/-- A realtime state with an established connection under the current
token. -/
def establishedRt : RtState := ⟨some "t", some "t", true, false, some 0, 1, []⟩

theorem promiseEach_resStep {ε : Type} (hooks : List (Except ε Unit)) :
    ∀ (k : Nat) (acc : List Nat),
      promiseEach resStep (hooks.enumFrom k) acc =
        (acc ++ List.range' k (resStopCount hooks), firstFailure hooks) := by
  induction hooks with
  | nil =>
    intro k acc
    simp [promiseEach, resStopCount, firstFailure, List.enumFrom, List.range']
  | cons h rest ih =>
    intro k acc
    cases h with
    | ok u =>
      cases u
      simp [List.enumFrom, promiseEach, resStep, resStopCount, firstFailure,
        ih (k + 1) (acc ++ [k]), List.range']
    | error e =>
      simp [List.enumFrom, promiseEach, resStep, resStopCount, firstFailure,
        List.range']

theorem proxyCacheRes_eq {ε : Type} (hooks : List (Except ε Unit)) :
    proxyCacheRes hooks = (List.range (resStopCount hooks), firstFailure hooks) := by
  have h := promiseEach_resStep hooks 0 []
  simpa [proxyCacheRes, List.enum, List.range_eq_range'] using h

/-- Sanity check justifying `clearCredentials`: `setCredentials()` called
with both fields absent (hence `null`) equals the plain field reset, for
every decoder, time and starting state. -/
theorem setCredentials_none (decode : String → Claims) (now : Int) (s : ClientState) :
    setCredentials decode now none none s = clearCredentials s := rfl

/-- C1: the claim states that the first cache hook returning a defined value
short-circuits the pipeline — its value is the response, later hooks are not
consulted, the transport is not invoked. The code's own `CacheHook` JSDoc
and the dead `return false` inside `proxyCacheReq` show this is the intent,
but the homemade `Promise.each` discards the callback's return value, so the
loop never breaks. Evaluating the model at the failing input: hooks
returning `1` and `undefined`, transport value `7` — both hooks run, the
pipeline yields `undefined`, the transport IS invoked and `7` is delivered;
with hooks returning `1` and `2` the LAST value `2` wins, not the first. -/
theorem cacheReq_first_hook_ignored :
    (driver [some 1, none] 7 ([] : List (Except Nat Unit))).transportInvoked = true ∧
    (driver [some 1, none] 7 ([] : List (Except Nat Unit))).result = Except.ok 7 ∧
    (driver [some 1, none] 7 ([] : List (Except Nat Unit))).reqInvoked = [0, 1] ∧
    (driver [some 1, some 2] 7 ([] : List (Except Nat Unit))).result = Except.ok 2 :=
  ⟨rfl, rfl, rfl, rfl⟩

/-- C3 counterexample: with two registered cache hooks whose `res` handlers
respectively fail and succeed, only the first (failing) handler is invoked —
refuting the claim that every hook's `res` handler runs even if an earlier
one fails. -/
theorem cacheRes_stops_at_failure :
    (driver ([] : List (Option Nat)) 7
      [Except.error (0 : Nat), Except.ok ()]).resInvoked = [0] ∧
    (1 : Nat) ∉ (driver ([] : List (Option Nat)) 7
      [Except.error (0 : Nat), Except.ok ()]).resInvoked :=
  ⟨rfl, by decide⟩

/-- C3 (amended): for every request not served from cache, the transport is
invoked and its value delivered to the caller as the response; the
registered hooks' `res` handlers are invoked in registration order up to and
including the first failing one (a failure skips the remaining handlers);
and a failure in the pass is logged, never propagated — the delivered
result is the transport's value regardless of the res hooks' outcomes. -/
theorem cacheRes_observation_amended {V E : Type} (reqHooks : List (Option V))
    (transport : V) (resHooks : List (Except E Unit))
    (hc : (proxyCacheReq reqHooks).2 = none) :
    (driver reqHooks transport resHooks).result = Except.ok transport ∧
    (driver reqHooks transport resHooks).transportInvoked = true ∧
    (driver reqHooks transport resHooks).resInvoked =
      List.range (resStopCount resHooks) ∧
    (driver reqHooks transport resHooks).logged =
      (firstFailure resHooks).toList := by
  rcases hpr : proxyCacheReq reqHooks with ⟨inv, c⟩
  have hc2 : c = none := by rw [hpr] at hc; exact hc
  subst hc2
  simp [driver, hpr, proxyCacheRes_eq]

/-- Witness for the amended C3 theorem at a concrete input: one req hook
returning `undefined`, transport `7`, res hooks failing then succeeding. -/
theorem cacheRes_observation_amended_witness :
    (proxyCacheReq [(none : Option Nat)]).2 = none ∧
    ((driver [(none : Option Nat)] 7 [Except.error (0 : Nat), Except.ok ()]).result =
        Except.ok 7 ∧
      (driver [(none : Option Nat)] 7
          [Except.error (0 : Nat), Except.ok ()]).transportInvoked = true ∧
      (driver [(none : Option Nat)] 7 [Except.error (0 : Nat), Except.ok ()]).resInvoked =
        List.range (resStopCount [Except.error (0 : Nat), Except.ok ()]) ∧
      (driver [(none : Option Nat)] 7 [Except.error (0 : Nat), Except.ok ()]).logged =
        (firstFailure [Except.error (0 : Nat), Except.ok ()]).toList) :=
  ⟨rfl, cacheRes_observation_amended [(none : Option Nat)] 7
    [Except.error (0 : Nat), Except.ok ()] rfl⟩

/-- C2 counterexample: starting from a client holding a session, a rejected
revoke request makes `logout()` (and `me()`) propagate the rejection with
the access token still in place — refuting the claim that local session
teardown is unconditional. -/
theorem logout_revoke_failure_keeps_credentials :
    (logout (Except.error (0 : Nat)) sessionClient).1.accessToken = some "tok" ∧
    (logout (Except.error (0 : Nat)) sessionClient).1.accessToken ≠ none ∧
    (logout (Except.error (0 : Nat)) sessionClient).2 = some 0 ∧
    (me (Except.error (0 : Nat)) sessionClient).1.accessToken = some "tok" :=
  ⟨rfl, by decide, rfl, rfl⟩

/-- C2 (amended): `logout()` performs local teardown only when the revoke
request succeeds; when it rejects, the rejection propagates to the caller
and the client state — credentials included — is unchanged. `me()` behaves
the same after its early return for anonymous clients. -/
theorem logout_teardown_amended {ε : Type} (e : ε) (s : ClientState) :
    logout (Except.error e) s = (s, some e) ∧
    logout (Except.ok () : Except ε Unit) s = (localLogout s, none) ∧
    me (Except.error e) s = (s, if jsTruthyStr s.accessToken then some e else none) ∧
    me (Except.ok () : Except ε Unit) s =
      (if jsTruthyStr s.accessToken then (localLogout s, none) else (s, none)) := by
  refine ⟨rfl, rfl, ?_, ?_⟩ <;>
    cases h : jsTruthyStr s.accessToken <;> simp [me, h]

/-- C4: when the proxy is invoked with exactly one accumulated path segment,
`methodCallback` is consulted with that segment and the call's arguments; a
defined result is returned directly with the path left consumed and the
chain abandoned, while an undefined result restores the segment onto the
path and lets chain building continue. With zero or several accumulated
segments the callback is not consulted and the chain simply continues with
the path untouched. -/
theorem proxy_method_callback_speculative {V : Type}
    (mc : Seg → List V → Option V) (seg p q : Seg) (rest : List Seg)
    (args : List V) :
    (applyTrap mc [seg] args =
      match mc seg args with
      | some v => (⟨some v, [], false⟩ : ApplyOut V)
      | none => ⟨none, [seg], true⟩) ∧
    applyTrap mc [] args = ⟨none, [], true⟩ ∧
    applyTrap mc (p :: q :: rest) args = ⟨none, p :: q :: rest, true⟩ := by
  refine ⟨?_, rfl, rfl⟩
  cases h : mc seg args <;> simp [applyTrap, h]

/-- C5: the compiled URL is a single leading `/` plus the per-segment tokens
joined by `/`, where a literal segment contributes its raw value unmodified
and an identifier segment goes through the kebab-casing function `kc`
(the imported lodash `kebabCase`); also checks the spec's concrete example
with the kebab-case model and that camel case normalizes to hyphenated
lowercase. -/
theorem path_compiler_kebab_join (kc : String → String) (s v : String)
    (p q : Seg) (rest : List Seg) (paths : List Seg) :
    pathsToUrl kc paths = "/" ++ joinSep "/" (paths.map (segToken kc)) ∧
    segToken kc (Seg.lit v) = v ∧
    segToken kc (Seg.ident s) = kc s ∧
    pathsToUrl kc [] = "/" ∧
    pathsToUrl kc (p :: q :: rest) = "/" ++ segToken kc p ++ pathsToUrl kc (q :: rest) ∧
    pathsToUrl kebabCase [Seg.ident "entities", Seg.ident "user", Seg.lit "123"] =
      "/entities/user/123" ∧
    kebabCase "oliviasFavorite" = "olivias-favorite" := by
  refine ⟨rfl, rfl, rfl, rfl, ?_, rfl, rfl⟩
  simp [pathsToUrl, joinSep, List.map_cons, String.append_assoc]

/-- C6: compiling any terminal action always resets the accumulated path to
empty, so a second chain started from the same root proxy compiles a URL
built only from its own segments — nothing leaks from the first chain. -/
theorem terminal_compile_resets_path (kc : String → String) (p1 l2 : List Seg)
    (b1 q1 b2 q2 : JsObject) (m1 m2 : String) :
    (deliverState kc p1 b1 q1 m1).2 = [] ∧
    (deliverState kc ((deliverState kc p1 b1 q1 m1).2 ++ l2) b2 q2 m2).1.url =
      pathsToUrl kc l2 :=
  ⟨rfl, rfl⟩

/-- C7: `.delete()` called with one or more arguments fails synchronously
with the invalid-argument error, while `.delete()` with zero arguments
compiles a `delete` request from the accumulated path and the staged query,
consuming the path; in particular the chain `proxy.entities.user('id')`
compiles to `{url: '/entities/user/id', method: 'delete', get: {}, body: {}}`. -/
theorem crud_delete_arity_and_compile (kc : String → String) (a : JsValue)
    (args : List JsValue) (paths : List Seg) (g : JsObject) :
    crudDelete kc (a :: args) paths g =
      Except.error "Method delete does not take any arguments" ∧
    crudDelete kc [] paths g =
      Except.ok (⟨pathsToUrl kc paths, "delete", g, []⟩, []) ∧
    crudDelete kebabCase [] [Seg.ident "entities", Seg.ident "user", Seg.lit "id"] [] =
      Except.ok (⟨"/entities/user/id", "delete", [], []⟩, []) := by
  refine ⟨?_, rfl, rfl⟩
  have h : (a :: args).length > 0 := Nat.succ_pos _
  simp [crudDelete, h]

/-- C8 counterexample: `setCredentials` with the non-null access token `""`
produces no authorization header and a null session profile, because the
source tests the token with JavaScript truthiness rather than null-ness —
refuting the claim for the non-null empty-string token. -/
theorem setCredentials_empty_token_counterexample :
    (setCredentials decodeId 0 (some "") none emptyClient).authHeader = none ∧
    (setCredentials decodeId 0 (some "") none emptyClient).userProfile = none ∧
    (some "" : Option String) ≠ none :=
  ⟨rfl, rfl, by decide⟩

/-- C8 (amended): `setCredentials` replaces the credential pair wholesale
(an absent field means null); with a truthy — non-null, non-empty — access
token whose decoded claims have not expired, the authorization header
becomes `Bearer <token>` and the session profile equals the decoded claims,
while with a null access token the header is removed entirely and the
profile is null. -/
theorem setCredentials_wholesale_amended (decode : String → Claims) (now : Int)
    (r : Option String) (s : ClientState) (tok : String)
    (htok : tok ≠ "") (hexp : claimsExpired now (decode tok) = false) :
    (setCredentials decode now (some tok) r s).accessToken = some tok ∧
    (setCredentials decode now (some tok) r s).refreshToken = r ∧
    (setCredentials decode now (some tok) r s).authHeader =
      some ("Bearer " ++ tok) ∧
    (setCredentials decode now (some tok) r s).userProfile = some (decode tok) ∧
    (setCredentials decode now none r s).accessToken = none ∧
    (setCredentials decode now none r s).refreshToken = r ∧
    (setCredentials decode now none r s).authHeader = none ∧
    (setCredentials decode now none r s).userProfile = none := by
  have hb : (tok != "") = true := bne_iff_ne.mpr htok
  refine ⟨?_, ?_, ?_, ?_, rfl, rfl, rfl, rfl⟩ <;>
    simp [setCredentials, refreshCredentials, sessionBeat, jsTruthyStr,
      localLogout, hb, hexp]

/-- Witness for the amended C8 theorem at a concrete decoder, time, token
and starting state. -/
theorem setCredentials_wholesale_amended_witness :
    ("t" ≠ "" ∧ claimsExpired 0 (decodeId "t") = false) ∧
    ((setCredentials decodeId 0 (some "t") none emptyClient).accessToken =
        some "t" ∧
      (setCredentials decodeId 0 (some "t") none emptyClient).refreshToken = none ∧
      (setCredentials decodeId 0 (some "t") none emptyClient).authHeader =
        some ("Bearer " ++ "t") ∧
      (setCredentials decodeId 0 (some "t") none emptyClient).userProfile =
        some (decodeId "t") ∧
      (setCredentials decodeId 0 none none emptyClient).accessToken = none ∧
      (setCredentials decodeId 0 none none emptyClient).refreshToken = none ∧
      (setCredentials decodeId 0 none none emptyClient).authHeader = none ∧
      (setCredentials decodeId 0 none none emptyClient).userProfile = none) :=
  ⟨⟨by decide, rfl⟩,
    setCredentials_wholesale_amended decodeId 0 none emptyClient "t"
      (by decide) rfl⟩

/-- C9: when the connection identity on record equals the current token and
a connection is established or in progress, `connect()` returns with the
state untouched — no socket is torn down, none is created, and the
connection flags are unchanged. -/
theorem connect_idempotent_same_identity (s : RtState)
    (h1 : s.connectedAuth = s.token)
    (h2 : s.isConnected = true ∨ s.isConnecting = true) :
    connect s = s := by
  unfold connect
  exact if_pos ⟨h1, h2⟩

/-- Witness for C9 at a concrete established connection state. -/
theorem connect_idempotent_witness :
    establishedRt.connectedAuth = establishedRt.token ∧
    (establishedRt.isConnected = true ∨ establishedRt.isConnecting = true) ∧
    connect establishedRt = establishedRt :=
  ⟨rfl, Or.inl rfl,
    connect_idempotent_same_identity establishedRt rfl (Or.inl rfl)⟩

/-- C10: when a single-segment call is dispatched through the client's
`methodCallback` and the underlying `ApiClient` method returns a falsy
value, the `|| true` fallback makes the proxy short-circuit with the literal
boolean `true` — the method's actual falsy result never reaches the
caller. -/
theorem proxy_falsy_method_result_becomes_true
    (call : String → List JsValue → JsValue) (name : String)
    (args : List JsValue) (h : jsTruthy (call name args) = false) :
    clientProxyApply call [Seg.ident name] args =
      ⟨some (JsValue.bool true), [], false⟩ := by
  simp [clientProxyApply, applyTrap, clientMethodCallback, jsOr, segName,
    jsDefined, h]

/-- Witness for C10 with an underlying method returning `undefined` (as
`ApiClient.cache` does). -/
theorem proxy_falsy_method_result_becomes_true_witness :
    jsTruthy ((fun (_ : String) (_ : List JsValue) => JsValue.undef) "cache"
      ([] : List JsValue)) = false ∧
    clientProxyApply (fun _ _ => JsValue.undef) [Seg.ident "cache"] [] =
      ⟨some (JsValue.bool true), [], false⟩ :=
  ⟨rfl, proxy_falsy_method_result_becomes_true (fun _ _ => JsValue.undef)
    "cache" [] rfl⟩
